import Mathlib

/-!
Verification development for the servicemarq post-processing pipeline
(`post_processing/info_extraction/extractors.py`,
`post_processing/name_disambiguation/external_api.py`).

The Python source is shallowly embedded: each relevant method is translated
into a pure Lean function over explicit state; relational/graph store writes
become emitted operation lists, exceptions become `Except`.
-/

namespace Servicemarq

/-- A classified page line, mirroring the `Line` record consumed by
`BlockExtractor`/`LineInfoExtractor` (fields read by the code:
`id`, `page_id`, `num`, `indent`, `text`, `label`, `dl_prediction`,
`svm_prediction`). -/
structure Line where
  id : Int
  page_id : Int
  num : Int
  indent : Int
  text : String
  label : String
  dl_prediction : String
  svm_prediction : String
deriving DecidableEq, Repr

/-- Label selection used in `get_relevant_blocks` (line 67) and
`process_block` (lines 168-169):
`line.label if extract_type == 'gold' else line.svm_prediction if
extract_type == 'svm_prediction' else line.dl_prediction`. -/
def labelOf (extract_type : String) (l : Line) : String :=
  if extract_type = "gold" then l.label
  else if extract_type = "svm_prediction" then l.svm_prediction
  else l.dl_prediction

/-- `within_threshold(line, prev_line, rl_line)` from
`BlockExtractor.get_relevant_blocks` (extractors.py lines 49-58):
the indentation difference is taken against the role-label line `rl_line`,
the line-number difference against the previously accepted line `prev_line`;
both comparisons are strict. -/
def within_threshold (indent_diff_thresh lnum_diff_thresh : Int)
    (line prev_line rl_line : Line) : Bool :=
  decide (|line.indent - rl_line.indent| < indent_diff_thresh) &&
  decide (|line.num - prev_line.num| < lnum_diff_thresh)

/-- Insertion-ordered dictionary update modelling
`mapping[role_label].append(line)` / `mapping[role_label] = [line]` on the
`defaultdict(list)` in `get_relevant_blocks` (lines 73-76): append `line`
to the entry of `rl`, creating the entry at the end when absent. -/
def addToBlock : List (Line × List Line) → Line → Line → List (Line × List Line)
  | [], rl, l => [(rl, [l])]
  | (k, v) :: rest, rl, l =>
    if k = rl then (k, v ++ [l]) :: rest else (k, v) :: addToBlock rest rl l

/-- One iteration of the scan loop of `get_relevant_blocks`
(lines 66-79). State is `(role_label, prev_labelled, mapping)`. -/
def blockStep (extract_type : String) (indent_diff_thresh lnum_diff_thresh : Int)
    (st : Option Line × Option Line × List (Line × List Line)) (line : Line) :
    Option Line × Option Line × List (Line × List Line) :=
  let (role_label, prev_labelled, mapping) := st
  let label := labelOf extract_type line
  if label = "Role-Label" then
    (some line, some line, mapping)
  else
    match role_label, prev_labelled with
    | some rl, some prev =>
      if within_threshold indent_diff_thresh lnum_diff_thresh line prev rl then
        (some rl, some line, addToBlock mapping rl line)
      else
        (some rl, some prev, mapping)
    | _, _ => (role_label, prev_labelled, mapping)

/-- `BlockExtractor.get_relevant_blocks` (lines 43-81), over an already
retrieved line list: scan the lines, grouping content lines under the most
recent Role-Label line when `within_threshold` accepts them. -/
def get_relevant_blocks (extract_type : String)
    (indent_diff_thresh lnum_diff_thresh : Int) (lines : List Line) :
    List (Line × List Line) :=
  (lines.foldl (blockStep extract_type indent_diff_thresh lnum_diff_thresh)
    (none, none, [])).2.2

/-- Python `str.split(sep)` with a one-character separator, over the
character list of the string: split at every occurrence of `sep`, keeping
empty fragments; the empty string yields `[[]]` (Python: `['']`). -/
def splitOnChar (sep : Char) : List Char → List (List Char)
  | [] => [[]]
  | c :: cs =>
    let r := splitOnChar sep cs
    if c = sep then [] :: r
    else
      match r with
      | [] => [[c]]
      | t :: ts => (c :: t) :: ts

/-- Python `" ".join(tokens)` over character lists. -/
def joinSpace : List (List Char) → List Char
  | [] => []
  | [t] => t
  | t :: ts => t ++ ' ' :: joinSpace ts

/-- Python `text.split(sep)` returning strings; character-list based so the
kernel can evaluate it. -/
def py_split (sep : Char) (text : String) : List String :=
  (splitOnChar sep text.toList).map fun cs => String.mk cs

/-- `LineInfoExtractor.get_line_parts_flair` (lines 113-127), with the flair
tagger abstracted as `ext : fragment → list of (entity_text, entity_tag)`
spans: split the text on commas, tag each fragment, and perform
`line_parts[entity.tag] = entity.text` for every span in order, starting
from the `defaultdict(lambda: None)`. -/
def get_line_parts_flair (ext : String → List (String × String))
    (text : String) : String → Option String :=
  ((py_split ',' text).flatMap ext).foldl
    (fun m e => fun tag => if tag = e.2 then some e.1 else m tag)
    (fun _ => none)

/-- One id-ascending insertion, for modelling `ORDER BY id`. -/
def insertById (l : Line) : List Line → List Line
  | [] => [l]
  | x :: xs => if l.id ≤ x.id then l :: x :: xs else x :: insertById l xs

/-- Sort a result set ascending by `id`, modelling SQL `ORDER BY id`. -/
def sortById (ls : List Line) : List Line := ls.foldr insertById []

/-- The per-page `SELECT * FROM PageLines WHERE page_id=? AND line_text!=''
AND (field != 'Undefined') ORDER BY id` queries of `get_relevant_lines`
(extractors.py lines 27-37), over a database modelled as a list of rows. -/
def pageLinesBy (field : Line → String) (db : List Line) (page : Int) :
    List Line :=
  sortById (db.filter fun l =>
    l.page_id = page && l.text ≠ "" && field l ≠ "Undefined")

/-- `BlockExtractor.get_relevant_lines` (lines 17-41), over the page-id list
of the conference and a row database. Control flow follows the source: the
first `if` (svm_prediction) runs its query, but the following separate
`if dl_prediction / elif gold / else: return []` statement means any
extraction type other than `dl_prediction` or `gold` hits `return []` on
the first page — including `svm_prediction`, whose query result is
discarded. -/
def get_relevant_lines (extract_type : String) (page_ids : List Int)
    (db : List Line) : List Line :=
  match page_ids with
  | [] => []
  | page_id :: rest =>
    if extract_type = "dl_prediction" then
      pageLinesBy (fun l => l.dl_prediction) db page_id ++
        get_relevant_lines extract_type rest db
    else if extract_type = "gold" then
      pageLinesBy (fun l => l.label) db page_id ++
        get_relevant_lines extract_type rest db
    else []

/-- The relational/graph writes performed while processing a block, at the
level of the logical fact written: `add_person`, `add_organization`,
`add_role_rel`, `add_affiliation_rel`, `update_org_loc`
(extractors.py lines 210-256), keyed by the name strings passed in. -/
inductive Fact where
  | person (name : String)
  | organization (name : String)
  | role_rel (person role : String)
  | affiliation_rel (person org : String)
  | org_loc (org loc : String)
deriving DecidableEq, Repr

/-- Decidable equality for `Except`, so concrete runs can be checked by
`decide`. -/
def exceptDecEq {ε α : Type} [DecidableEq ε] [DecidableEq α] :
    (x y : Except ε α) → Decidable (x = y)
  | .error a, .error b =>
    match decEq a b with
    | isTrue h => isTrue (h ▸ rfl)
    | isFalse h => isFalse fun hc => h (Except.error.inj hc)
  | .error _, .ok _ => isFalse fun hc => Except.noConfusion hc
  | .ok _, .error _ => isFalse fun hc => Except.noConfusion hc
  | .ok a, .ok b =>
    match decEq a b with
    | isTrue h => isTrue (h ▸ rfl)
    | isFalse h => isFalse fun hc => h (Except.ok.inj hc)

instance {ε α : Type} [DecidableEq ε] [DecidableEq α] :
    DecidableEq (Except ε α) := exceptDecEq

/-- Emit one fact to the relational store. `fails` is the failure oracle for
the underlying `cur.execute` call: on failure the Python call raises (there
is no `try`/`except` in `extractors.py`), modelled as `Except.error`. -/
def emit (fails : Fact → Bool) (evs : List Fact) (f : Fact) :
    Except Fact (List Fact) :=
  if fails f then .error f else .ok (evs ++ [f])

/-- `LineInfoExtractor.process_pair` (lines 144-157): create the person,
add the role relation, extract ORG/LOC from the affiliation text, and when
an ORG was found add the organization (with optional location update) and
the affiliation relation. -/
def process_pair (fails : Fact → Bool) (ext : String → List (String × String))
    (person affiliation role_label : Line) (evs : List Fact) :
    Except Fact (List Fact) := do
  let evs ← emit fails evs (.person person.text)
  let evs ← emit fails evs (.role_rel person.text role_label.text)
  let parts := get_line_parts_flair ext affiliation.text
  match parts "ORG" with
  | some org => do
    let evs ← emit fails evs (.organization org)
    let evs ← (match parts "LOC" with
      | some loc => emit fails evs (.org_loc org loc)
      | none => pure evs)
    emit fails evs (.affiliation_rel person.text org)
  | none => pure evs

/-- `LineInfoExtractor.process_complex` (lines 129-142): extract entities
from the line; a PER yields person + role facts, an ORG yields the
organization (plus location when a LOC is present), and when both PER and
ORG are present the affiliation relation is added. -/
def process_complex (fails : Fact → Bool)
    (ext : String → List (String × String)) (line role_label : Line)
    (evs : List Fact) : Except Fact (List Fact) := do
  let parts := get_line_parts_flair ext line.text
  let evs ← (match parts "PER" with
    | some p => do
      let evs ← emit fails evs (.person p)
      emit fails evs (.role_rel p role_label.text)
    | none => pure evs)
  let evs ← (match parts "ORG" with
    | some o => do
      let evs ← emit fails evs (.organization o)
      match parts "LOC" with
      | some loc => emit fails evs (.org_loc o loc)
      | none => pure evs
    | none => pure evs)
  match parts "PER", parts "ORG" with
  | some p, some o => emit fails evs (.affiliation_rel p o)
  | _, _ => pure evs

/-- One iteration of the content loop of `process_block` (lines 166-189).
State: `(emitted facts, u_person, u_aff)`. -/
def blockLineStep (fails : Fact → Bool) (extract_type : String)
    (ext : String → List (String × String)) (role_label : Line)
    (st : List Fact × Option Line × Option Line) (cur_line : Line) :
    Except Fact (List Fact × Option Line × Option Line) :=
  let (evs, u_person, u_aff) := st
  let label := labelOf extract_type cur_line
  if label = "Complex" then do
    let evs' ← process_complex fails ext cur_line role_label evs
    pure (evs', u_person, u_aff)
  else if label = "Person" then
    match u_aff with
    | some aff => do
      let evs' ← process_pair fails ext cur_line aff role_label evs
      pure (evs', none, none)
    | none => pure (evs, some cur_line, u_aff)
  else if label = "Affiliation" then
    match u_person with
    | some per => do
      let evs' ← process_pair fails ext per cur_line role_label evs
      pure (evs', none, none)
    | none => pure (evs, u_person, some cur_line)
  else pure (evs, u_person, u_aff)

/-- The content loop of `process_block`: process lines in order; an
uncaught store failure aborts the remaining lines. -/
def processContent (fails : Fact → Bool) (extract_type : String)
    (ext : String → List (String × String)) (role_label : Line)
    (st : List Fact × Option Line × Option Line) :
    List Line → Except Fact (List Fact × Option Line × Option Line)
  | [] => .ok st
  | cur :: rest =>
    match blockLineStep fails extract_type ext role_label st cur with
    | .error e => .error e
    | .ok st' => processContent fails extract_type ext role_label st' rest

/-- `LineInfoExtractor.process_block` (lines 159-189): scan the content
lines with `u_person, u_aff = None, None`, returning the emitted facts and
trailing `(u_person, u_aff)` state, or the first uncaught store failure. -/
def process_block (fails : Fact → Bool) (extract_type : String)
    (ext : String → List (String × String)) (role_label : Line)
    (content_lines : List Line) :
    Except Fact (List Fact × Option Line × Option Line) :=
  processContent fails extract_type ext role_label ([], none, none)
    content_lines

/-- Modelled from the spec (the SQLite engine and schema are external to
src/): the relational store supports "parametrized insert-or-ignore and
select-by-unique-key"; a table is the insertion-ordered list of its
distinct name strings, the row id of a name being its position plus one.
`INSERT OR IGNORE` leaves the table unchanged when the exact name string is
already present. -/
def insertOrIgnore (tbl : List String) (name : String) : List String :=
  if name ∈ tbl then tbl else tbl ++ [name]

/-- Row id of `name` in table `tbl` (position + 1), modelling
`SELECT id FROM ... WHERE name=?` after an insert-or-ignore of `name`. -/
def selectIdByName (tbl : List String) (name : String) : Int :=
  ((tbl.indexOf name : Nat) : Int) + 1

/-- `LineInfoExtractor.add_person` (lines 210-220): insert-or-ignore the
name, select its relational id, and when a graph session is present also
create the graph node (graph id given by `graphCreate`), returning
`(n4j_pid, sql_pid)`; without a session the graph id is the sentinel `-1`.
Returns the id pair together with the updated table. -/
def add_person (session : Bool) (graphCreate : String → Int)
    (tbl : List String) (person : String) : (Int × Int) × List String :=
  let t := insertOrIgnore tbl person
  let sql_pid := selectIdByName t person
  if session then ((graphCreate person, sql_pid), t)
  else ((-1, sql_pid), t)

/-- `LineInfoExtractor.add_organization` (lines 222-232): same shape as
`add_person`, over the Organizations table. -/
def add_organization (session : Bool) (graphCreate : String → Int)
    (tbl : List String) (org : String) : (Int × Int) × List String :=
  let t := insertOrIgnore tbl org
  let sql_oid := selectIdByName t org
  if session then ((graphCreate org, sql_oid), t)
  else ((-1, sql_oid), t)

/-- Graph-store writes (neo4j `write_transaction` calls). -/
inductive GraphOp where
  | create_affiliation_rel (personRef orgRef : Int)
deriving DecidableEq, Repr

/-- Relational writes of `add_affiliation_rel`. -/
inductive SqlOp where
  | insertPersonOrg (org_id person_id : Int)
deriving DecidableEq, Repr

/-- `LineInfoExtractor.add_affiliation_rel` (lines 237-242): the relational
insert uses `(org_ids[1], person_ids[1])`; when the session is present the
graph write is `TxFn.create_affiliation_rel(person_ids[0], org_ids[1])` —
exactly the indices the source passes. Id pairs are `(n4j_id, sql_id)`. -/
def add_affiliation_rel (session : Bool) (person_ids org_ids : Int × Int) :
    List SqlOp × List GraphOp :=
  ([.insertPersonOrg org_ids.2 person_ids.2],
   if session then [.create_affiliation_rel person_ids.1 org_ids.2] else [])

/-- Character-level Levenshtein distance with unit costs, modelling
`editdistance.eval`, over character lists. -/
def editdistance_eval (s t : List Char) : ℕ :=
  levenshtein Levenshtein.defaultCost s t

/-- Python `str.lower()`, over the character list. -/
def py_lower (s : List Char) : List Char := s.map Char.toLower

/-- `name1.split(" ")` of `API.similarity` (external_api.py line 136). -/
def n1_tokens_of (name1 : String) : List (List Char) :=
  splitOnChar ' ' name1.toList

/-- `" ".join(n1_tokens[1:] + [n1_tokens[0]])` (line 138): first token
moved to the last position. -/
def permute1_of (name1 : String) : List Char :=
  joinSpace ((n1_tokens_of name1).tail ++ [(n1_tokens_of name1).headD []])

/-- `" ".join([n1_tokens[-1]] + n1_tokens[:-1])` (line 140): last token
moved to the first position. -/
def permute2_of (name1 : String) : List Char :=
  joinSpace ((n1_tokens_of name1).getLastD [] :: (n1_tokens_of name1).dropLast)

/-- `API.similarity` (external_api.py lines 131-145): the minimum of the
edit distances of lowercased `name1`, and of its two token permutations,
against lowercased `name2`. -/
def similarity (name1 name2 : String) : ℕ :=
  min (editdistance_eval (py_lower name1.toList) (py_lower name2.toList))
    (min (editdistance_eval (py_lower (permute1_of name1)) (py_lower name2.toList))
      (editdistance_eval (py_lower (permute2_of name1)) (py_lower name2.toList)))

/-- The `Person` record of external_api.py (lines 7-16), built from a
provider-tagged tuple `(type, id, name, aff, topics)`. -/
structure PersonRec where
  type : String
  id : String
  name : String
  aff : List String
  topics : List String
deriving DecidableEq, Repr

/-- A raw provider result tuple `(id, name, affiliations, tags/interests)`. -/
abbrev RawResult := String × String × List String × List String

/-- `API.get_person_results` (lines 108-129), with the three external
providers abstracted as functions of `(name, num_results)`. Line 118
overwrites the `num_to_search` parameter with the constant 5 before any
provider is queried, and `org` is never read. -/
def get_person_results
    (orcid_person aminer_person gscholar_person : String → Nat → List RawResult)
    (name org : String) (num_to_search : Nat) : List PersonRec :=
  let num := 5
  let orcid_results := orcid_person name num
  let aminer_results := aminer_person name num
  let gscholar_results := gscholar_person name num
  (orcid_results.map fun r => ⟨"orcid", r.1, r.2.1, r.2.2.1, r.2.2.2⟩) ++
    (aminer_results.map fun r => ⟨"aminer_id", r.1, r.2.1, r.2.2.1, r.2.2.2⟩) ++
    (gscholar_results.map fun r => ⟨"gscholar_id", r.1, r.2.1, r.2.2.1, r.2.2.2⟩)

/-! ### Concrete inputs used by individual claims -/

/-- Extractor stub for C1: fragment `"x"` tags PER `"A"`, fragment `"y"`
tags PER `"B"`. -/
def c1_ext : String → List (String × String) := fun s =>
  if s = "x" then [("A", "PER")] else if s = "y" then [("B", "PER")] else []

/-- C3: role-label line, indent 0, num 0. -/
def c3_rl : Line := ⟨0, 1, 0, 0, "Program Committee", "Role-Label", "", ""⟩

/-- C3: first content line, indent 5, num 1. -/
def c3_l1 : Line := ⟨1, 1, 1, 5, "Alice", "Person", "", ""⟩

/-- C3: second content line, indent 14, num 2. -/
def c3_l2 : Line := ⟨2, 1, 2, 14, "Bob", "Person", "", ""⟩

/-- C4: a role-label line followed by no content lines. -/
def c4_rl : Line := ⟨0, 1, 0, 0, "Organizer", "Role-Label", "", ""⟩

/-- C4 witness: a content line accepted under `c4_rl`. -/
def c4_line : Line := ⟨1, 1, 1, 0, "Alice", "Person", "", ""⟩

/-- C5: failure oracle — the relational write of Person "Alice" raises. -/
def c5_fails : Fact → Bool := fun f => f = Fact.person "Alice"

/-- C5: extractor stub tagging "MIT" and "Acme" as organizations. -/
def c5_ext : String → List (String × String) := fun s =>
  if s = "MIT" then [("MIT", "ORG")]
  else if s = "Acme" then [("Acme", "ORG")] else []

/-- C5: role-label line. -/
def c5_rl : Line := ⟨0, 1, 0, 0, "PC Chair", "Role-Label", "", ""⟩

/-- C5: first person line. -/
def c5_alice : Line := ⟨1, 1, 1, 0, "Alice", "Person", "", ""⟩

/-- C5: first affiliation line. -/
def c5_mit : Line := ⟨2, 1, 2, 0, "MIT", "Affiliation", "", ""⟩

/-- C5: second person line. -/
def c5_bob : Line := ⟨3, 1, 3, 0, "Bob", "Person", "", ""⟩

/-- C5: second affiliation line. -/
def c5_acme : Line := ⟨4, 1, 4, 0, "Acme", "Affiliation", "", ""⟩

/-- C6: a page line whose svm prediction is a defined label, with non-empty
text (so the svm query would select it). -/
def c6_line : Line := ⟨1, 1, 1, 0, "Jane Doe", "Undefined", "Undefined", "Person"⟩

/-- C6: a page line carrying a gold label. -/
def c6_gold_line : Line := ⟨2, 1, 2, 0, "Jane Doe", "Person", "Undefined", "Undefined"⟩

/-- C6: a page line carrying a dl prediction. -/
def c6_dl_line : Line := ⟨3, 1, 3, 0, "Jane Doe", "Undefined", "Person", "Undefined"⟩

/-- C7: extractor stub tagging "MIT" as an organization. -/
def c7_ext : String → List (String × String) := fun s =>
  if s = "MIT" then [("MIT", "ORG")] else []

/-- C7: role-label line with text "PC Chair". -/
def c7_rl : Line := ⟨0, 1, 0, 0, "PC Chair", "Role-Label", "", ""⟩

/-- C7: the Person("Alice") content line. -/
def c7_alice : Line := ⟨1, 1, 1, 0, "Alice", "Person", "", ""⟩

/-- C7: the Affiliation("MIT") content line. -/
def c7_mit : Line := ⟨2, 1, 2, 0, "MIT", "Affiliation", "", ""⟩

/-- C7: the facts the block emits, in program order. -/
def c7_facts : List Fact :=
  [.person "Alice", .role_rel "Alice" "PC Chair",
   .organization "MIT", .affiliation_rel "Alice" "MIT"]

/-- C2: graph-node creation for persons returns graph id 7. -/
def c2_graphP : String → Int := fun _ => 7

/-- C2: graph-node creation for organizations returns graph id 9. -/
def c2_graphO : String → Int := fun _ => 9

/-! ### Helper lemmas -/

/-- The dictionary-assignment fold of `get_line_parts_flair` keeps, for each
tag, the value of the last matching entity, falling back to the initial
mapping. -/
theorem foldl_assign_getLast (tag : String) (es : List (String × String)) :
    ∀ (m : String → Option String),
      (es.foldl (fun m e => fun t => if t = e.2 then some e.1 else m t) m) tag =
        ((es.filter fun e => tag = e.2).getLast?).elim (m tag) (fun e => some e.1) := by
  induction es using List.reverseRecOn with
  | nil => intro m; rfl
  | append_singleton es e ih =>
    intro m
    rw [List.foldl_append, List.filter_append]
    by_cases h : tag = e.2
    · have hf : (List.filter (fun x => decide (tag = x.2)) [e]) = [e] := by simp [h]
      rw [hf, List.getLast?_concat]
      simp [h]
    · have hf : (List.filter (fun x => decide (tag = x.2)) [e]) = [] := by simp [h]
      rw [hf, List.append_nil]
      simpa [h] using ih m

/-- `addToBlock` never creates an empty content list. -/
theorem addToBlock_values_ne_nil {m : List (Line × List Line)} {rl l : Line}
    (hm : ∀ q ∈ m, q.2 ≠ []) : ∀ q ∈ addToBlock m rl l, q.2 ≠ [] := by
  induction m with
  | nil =>
    intro q hq
    simp only [addToBlock, List.mem_singleton] at hq
    subst hq
    simp
  | cons p m ih =>
    obtain ⟨k, v⟩ := p
    intro q hq
    simp only [addToBlock] at hq
    split at hq
    · rcases List.mem_cons.mp hq with h | h
      · subst h; simp
      · exact hm q (List.mem_cons_of_mem _ h)
    · rcases List.mem_cons.mp hq with h | h
      · subst h; exact hm (k, v) (List.mem_cons_self _ _)
      · exact ih (fun q hq => hm q (List.mem_cons_of_mem _ hq)) q h

/-- `blockStep` preserves non-emptiness of all content lists. -/
theorem blockStep_values_ne_nil (et : String) (ith lth : Int)
    (st : Option Line × Option Line × List (Line × List Line)) (line : Line)
    (hm : ∀ q ∈ st.2.2, q.2 ≠ []) :
    ∀ q ∈ (blockStep et ith lth st line).2.2, q.2 ≠ [] := by
  obtain ⟨rlO, prevO, m⟩ := st
  simp only [blockStep]
  split
  · exact hm
  · rcases rlO with _ | rl <;> rcases prevO with _ | prev <;> dsimp <;>
      try exact hm
    split
    · exact addToBlock_values_ne_nil hm
    · exact hm

/-- The scan loop of `get_relevant_blocks` preserves non-emptiness of all
content lists. -/
theorem foldl_blockStep_values_ne_nil (et : String) (ith lth : Int) :
    ∀ (lines : List Line) (st),
      (∀ q ∈ st.2.2, q.2 ≠ []) →
      ∀ q ∈ (lines.foldl (blockStep et ith lth) st).2.2, q.2 ≠ [] := by
  intro lines
  induction lines with
  | nil => intro st hm; exact hm
  | cons l ls ih =>
    intro st hm
    exact ih _ (blockStep_values_ne_nil et ith lth st l hm)

/-- Once the content loop of `process_block` has raised a store failure,
any further content lines leave the failure in place. -/
theorem processContent_append_error (fails : Fact → Bool) (et : String)
    (ext : String → List (String × String)) (rl : Line) :
    ∀ (pre : List Line) (st e),
      processContent fails et ext rl st pre = .error e →
      ∀ post, processContent fails et ext rl st (pre ++ post) = .error e := by
  intro pre
  induction pre with
  | nil =>
    intro st e h post
    exact absurd h (by simp [processContent])
  | cons c cs ih =>
    intro st e h post
    simp only [processContent, List.cons_append] at h ⊢
    cases hs : blockLineStep fails et ext rl st c with
    | error e' => rw [hs] at h; exact h
    | ok st' => rw [hs] at h; exact ih st' e h post

/-- `insertOrIgnore` always leaves the inserted name present. -/
theorem mem_insertOrIgnore_self (tbl : List String) (a : String) :
    a ∈ insertOrIgnore tbl a := by
  unfold insertOrIgnore
  split
  · assumption
  · simp

/-- `insertOrIgnore` of a present name is the identity. -/
theorem insertOrIgnore_of_mem {tbl : List String} {a : String} (h : a ∈ tbl) :
    insertOrIgnore tbl a = tbl := by
  simp [insertOrIgnore, h]

/-- `insertOrIgnore` of an absent name appends it. -/
theorem insertOrIgnore_of_not_mem {tbl : List String} {a : String}
    (h : a ∉ tbl) : insertOrIgnore tbl a = tbl ++ [a] := by
  simp [insertOrIgnore, h]

/-- The table returned by `add_person` is the insert-or-ignore table. -/
theorem add_person_snd (session : Bool) (g : String → Int)
    (tbl : List String) (a : String) :
    (add_person session g tbl a).2 = insertOrIgnore tbl a := by
  cases session <;> rfl

/-- The relational id returned by `add_person` is the id of the name in the
updated table. -/
theorem add_person_sql_id (session : Bool) (g : String → Int)
    (tbl : List String) (a : String) :
    (add_person session g tbl a).1.2 =
      selectIdByName (insertOrIgnore tbl a) a := by
  cases session <;> rfl

/-! ### Claims -/

/-- Claim C1, counterexample: with fragments `"x"` (PER "A") and `"y"`
(PER "B"), `get_line_parts_flair` keeps "B", the LAST tag seen, not the
first tag "A" — `line_parts[entity.tag] = entity.text` overwrites. -/
theorem C1_first_wins_counterexample :
    get_line_parts_flair c1_ext "x,y" "PER" ≠ some "A" ∧
      get_line_parts_flair c1_ext "x,y" "PER" = some "B" := by
  constructor
  · decide
  · decide

/-- Claim C1 (amended): for every extractor, text and entity type, the
value kept per type is the LAST tag seen over the comma-split fragments in
order (later entities of an already-filled type overwrite earlier ones). -/
theorem C1_line_parts_last_tag_wins (ext : String → List (String × String))
    (text tag : String) :
    get_line_parts_flair ext text tag =
      ((((py_split ',' text).flatMap ext).filter fun e => tag = e.2).getLast?).map
        Prod.fst := by
  unfold get_line_parts_flair
  rw [foldl_assign_getLast]
  generalize (((py_split ',' text).flatMap ext).filter fun e => tag = e.2).getLast? = gl
  cases gl <;> rfl

/-- Claim C2: with the graph session present, `add_person` returns graph id
7 / relational id 1 and `add_organization` returns graph id 9 / relational
id 4, yet the graph write of `add_affiliation_rel` is
`create_affiliation_rel(7, 4)` — it passes the organization's RELATIONAL
id `org_ids[1]` where the graph id 9 is required. -/
theorem C2_affiliation_graph_ref_uses_relational_org_id :
    (add_person true c2_graphP [] "Alice").1 = (7, 1) ∧
      (add_organization true c2_graphO ["a", "b", "c"] "MIT").1 = (9, 4) ∧
      (add_affiliation_rel true (7, 1) (9, 4)).2 =
        [GraphOp.create_affiliation_rel 7 4] ∧
      (9 : Int) ≠ 4 := by
  refine ⟨by decide, by decide, by decide, by decide⟩

/-- Claim C3, counterexample: with thresholds 10/10 and lines
Role-Label(indent 0, num 0), Line(indent 5, num 1), Line(indent 14, num 2),
the second content line is NOT accepted: `within_threshold` checks its
indent against the role label (|14 − 0| ≥ 10), not the last accepted
line. -/
theorem C3_chain_counterexample :
    c3_l2 ∉ (get_relevant_blocks "gold" 10 10 [c3_rl, c3_l1, c3_l2]).flatMap
        Prod.snd ∧
      within_threshold 10 10 c3_l2 c3_l1 c3_rl = false := by
  constructor
  · decide
  · decide

/-- Claim C3 (amended): the first content line is accepted (and becomes the
anchor for the line-number check only); the second content line is rejected
because the INDENT check always uses the role label, so the resulting block
is exactly `[Line(indent 5, num 1)]`. -/
theorem C3_indent_checked_against_role_label :
    get_relevant_blocks "gold" 10 10 [c3_rl, c3_l1, c3_l2] =
        [(c3_rl, [c3_l1])] ∧
      within_threshold 10 10 c3_l1 c3_rl c3_rl = true := by
  constructor
  · decide
  · decide

/-- Claim C4, counterexample: a Role-Label line with zero accepted content
lines does not appear in the mapping at all — the result for a lone
role-label line is the empty mapping, not `{role_label: []}`. -/
theorem C4_zero_content_counterexample :
    labelOf "gold" c4_rl = "Role-Label" ∧
      get_relevant_blocks "gold" 10 10 [c4_rl] = [] := by
  constructor
  · decide
  · decide

/-- Claim C4 (amended): a role-label line appears as a key of the
`get_relevant_blocks` mapping only when at least one content line was
accepted for it: every entry of the returned mapping has a non-empty
content list, and zero-content role labels are absent. -/
theorem C4_block_values_nonempty (et : String) (ith lth : Int)
    (lines : List Line) :
    ∀ q ∈ get_relevant_blocks et ith lth lines, q.2 ≠ [] := by
  intro q hq
  exact foldl_blockStep_values_ne_nil et ith lth lines (none, none, [])
    (by intro q hq; simp at hq) q hq

/-- Witness for C4 (amended): the accepted block for a concrete run is
non-empty. -/
theorem C4_block_values_nonempty_witness :
    ((c4_rl, [c4_line]) : Line × List Line).2 ≠ [] :=
  C4_block_values_nonempty "gold" 10 10 [c4_rl, c4_line] (c4_rl, [c4_line])
    (by decide)

/-- Claim C5, counterexample: when the relational write of Person "Alice"
fails, `process_block` raises (`Except.error`) instead of continuing —
although the same block without the failure would also emit Bob's facts
(count of `person "Bob"` is 1 in the no-failure run), none of the later
lines are processed. -/
theorem C5_per_fact_abort_counterexample :
    process_block c5_fails "gold" c5_ext c5_rl
        [c5_alice, c5_mit, c5_bob, c5_acme] =
        .error (Fact.person "Alice") ∧
      (process_block (fun _ => false) "gold" c5_ext c5_rl
          [c5_alice, c5_mit, c5_bob, c5_acme]).toOption.map
          (fun r => r.1.count (Fact.person "Bob")) = some 1 := by
  constructor
  · decide
  · decide

/-- Claim C5 (amended): a relational-store write failure propagates out of
`process_block` (there is no handler): once a prefix of the content raises,
the whole call raises the same failure no matter how many lines follow —
the remaining lines of the block are never processed. -/
theorem C5_write_failure_aborts_block (fails : Fact → Bool) (et : String)
    (ext : String → List (String × String)) (rl : Line)
    (pre post : List Line) (e : Fact)
    (h : process_block fails et ext rl pre = .error e) :
    process_block fails et ext rl (pre ++ post) = .error e :=
  processContent_append_error fails et ext rl pre ([], none, none) e h post

/-- Witness for C5 (amended): the concrete failing block, extended by the
remaining lines, still raises the Alice write failure. -/
theorem C5_write_failure_aborts_block_witness :
    process_block c5_fails "gold" c5_ext c5_rl
        ([c5_alice, c5_mit] ++ [c5_bob, c5_acme]) =
      .error (Fact.person "Alice") :=
  C5_write_failure_aborts_block c5_fails "gold" c5_ext c5_rl
    [c5_alice, c5_mit] [c5_bob, c5_acme] (Fact.person "Alice") (by decide)

/-- Claim C6: the svm filter itself would select the line (first conjunct),
but `get_relevant_lines` in `svm_prediction` mode returns `[]` for any
conference with at least one page — the dangling `if dl / elif gold /
else: return []` discards the svm query result — while `gold` and
`dl_prediction` modes return the filtered lines as claimed. -/
theorem C6_svm_mode_returns_empty :
    pageLinesBy (fun l => l.svm_prediction) [c6_line] 1 = [c6_line] ∧
      get_relevant_lines "svm_prediction" [1] [c6_line] = [] ∧
      get_relevant_lines "gold" [1] [c6_gold_line] = [c6_gold_line] ∧
      get_relevant_lines "dl_prediction" [1] [c6_dl_line] = [c6_dl_line] := by
  refine ⟨by decide, by decide, by decide, by decide⟩

/-- Claim C7: for content [Person("Alice"), Affiliation("MIT")] under role
label "PC Chair", `process_block` emits exactly one person-role fact
(Alice, "PC Chair") and exactly one affiliation fact (Alice, MIT), and the
trailing `(u_person, u_aff)` state is `(None, None)` (IDLE). -/
theorem C7_pair_block_emits_once :
    process_block (fun _ => false) "gold" c7_ext c7_rl [c7_alice, c7_mit] =
        .ok (c7_facts, none, none) ∧
      (c7_facts.countP fun f =>
        match f with | .role_rel _ _ => true | _ => false) = 1 ∧
      (c7_facts.countP fun f =>
        match f with | .affiliation_rel _ _ => true | _ => false) = 1 ∧
      c7_facts.count (Fact.role_rel "Alice" "PC Chair") = 1 ∧
      c7_facts.count (Fact.affiliation_rel "Alice" "MIT") = 1 := by
  refine ⟨by decide, by decide, by decide, by decide, by decide⟩

/-- Claim C8: `similarity` is the minimum of the three lowercased
character edit distances — plain, first token moved to the end, last token
moved to the front (only `name1` is permuted) — and in particular
`similarity "John Smith" "Smith John" = 0`; the result is a natural
number. -/
theorem C8_similarity_min_of_three_distances (name1 name2 : String)
    (h : name1 ≠ "") :
    similarity name1 name2 =
        min (editdistance_eval (py_lower name1.toList) (py_lower name2.toList))
          (min (editdistance_eval (py_lower (permute1_of name1))
              (py_lower name2.toList))
            (editdistance_eval (py_lower (permute2_of name1))
              (py_lower name2.toList))) ∧
      similarity "John Smith" "Smith John" = 0 :=
  ⟨rfl, by decide⟩

/-- Witness for C8 at `name1 = "John Smith"`, `name2 = "Smith John"`. -/
theorem C8_similarity_witness :
    ("John Smith" : String) ≠ "" ∧ similarity "John Smith" "Smith John" = 0 :=
  ⟨by decide,
   (C8_similarity_min_of_three_distances "John Smith" "Smith John"
      (by decide)).2⟩

/-- Claim C9: two successive `add_person` calls return the same relational
id iff the name strings are exactly equal; on an equal name the second call
also leaves the Persons table unchanged (idempotent upsert), while any
different string (different case or spacing included) yields a distinct
id via a distinct record. -/
theorem C9_add_person_id_exact_string (session : Bool) (g : String → Int)
    (tbl : List String) (a b : String) :
    ((add_person session g (add_person session g tbl a).2 b).1.2 =
        (add_person session g tbl a).1.2 ↔ a = b) ∧
      (a = b →
        (add_person session g (add_person session g tbl a).2 b).2 =
          (add_person session g tbl a).2) := by
  have h2 := add_person_snd session g tbl a
  have ha : a ∈ insertOrIgnore tbl a := mem_insertOrIgnore_self tbl a
  constructor
  · rw [h2, add_person_sql_id, add_person_sql_id]
    constructor
    · intro h
      unfold selectIdByName at h
      have h' : (insertOrIgnore (insertOrIgnore tbl a) b).indexOf b =
          (insertOrIgnore tbl a).indexOf a := by
        have := add_right_cancel h
        exact_mod_cast this
      by_cases hb : b ∈ insertOrIgnore tbl a
      · rw [insertOrIgnore_of_mem hb] at h'
        exact ((List.indexOf_inj hb ha).mp h').symm
      · rw [insertOrIgnore_of_not_mem hb,
          List.indexOf_append_of_not_mem hb] at h'
        have hlt := List.indexOf_lt_length.mpr ha
        simp [List.indexOf_cons_self] at h'
        omega
    · intro h
      subst h
      rw [insertOrIgnore_of_mem ha]
  · intro h
    subst h
    rw [h2, add_person_snd, insertOrIgnore_of_mem ha]

/-- Witness for C9: same string "Alice" twice gives the same relational id;
the differently-cased "alice" gives a different id. -/
theorem C9_add_person_id_exact_string_witness :
    ((add_person false (fun _ => 0)
        (add_person false (fun _ => 0) [] "Alice").2 "Alice").1.2 =
      (add_person false (fun _ => 0) [] "Alice").1.2) ∧
    ((add_person false (fun _ => 0)
        (add_person false (fun _ => 0) [] "Alice").2 "alice").1.2 ≠
      (add_person false (fun _ => 0) [] "Alice").1.2) :=
  ⟨(C9_add_person_id_exact_string false (fun _ => 0) [] "Alice" "Alice").1.mpr
      rfl,
   fun h => absurd
     ((C9_add_person_id_exact_string false (fun _ => 0) [] "Alice" "alice").1.mp
        h)
     (by decide)⟩

/-- Claim C10: `get_person_results` ignores its `org` and `num_to_search`
arguments — for any providers and name, the result is identical across any
two values of those arguments, and each provider is queried with the fixed
bound 5. -/
theorem C10_person_results_independent_of_caller_args
    (orcid_p aminer_p gscholar_p : String → Nat → List RawResult)
    (name org₁ org₂ : String) (n₁ n₂ : Nat) :
    get_person_results orcid_p aminer_p gscholar_p name org₁ n₁ =
        get_person_results orcid_p aminer_p gscholar_p name org₂ n₂ ∧
      get_person_results orcid_p aminer_p gscholar_p name org₁ n₁ =
        ((orcid_p name 5).map fun r =>
            ⟨"orcid", r.1, r.2.1, r.2.2.1, r.2.2.2⟩) ++
          ((aminer_p name 5).map fun r =>
            ⟨"aminer_id", r.1, r.2.1, r.2.2.1, r.2.2.2⟩) ++
          ((gscholar_p name 5).map fun r =>
            ⟨"gscholar_id", r.1, r.2.1, r.2.2.1, r.2.2.2⟩) :=
  ⟨rfl, rfl⟩

end Servicemarq
